import Mathlib

/-!
Verification development for the kamyczki-bot stone identity pipeline.

Shallow embedding of the core logic in `src/bot/handlers.py`,
`src/database/models.py`, `src/services/map_service.py` and
`src/services/geocoding.py`.

Conventions of the embedding:
* machine floats are modelled as `ℚ` (the code only compares and copies them);
* timestamps (`created_at`, assigned by `datetime.utcnow`) are modelled as `Nat`
  clock values supplied by the caller;
* database effects are modelled as explicit state passing over a `DB` record;
* a Python `try/except` that swallows an exception is modelled by an
  `Except Unit` argument carrying the outcome of the fallible call;
* Python `str.isalnum` is modelled for ASCII alphanumeric characters
  (all string literals relevant to the theorems below are ASCII);
* Python `str.lower` / `str.strip` are modelled by `pyLower` / `pyStrip`
  below (ASCII behaviour, which covers every comparison made here).
-/

/-- Python `str.lower`, modelled character-wise (ASCII case folding). -/
def pyLower (s : String) : String := ⟨s.data.map Char.toLower⟩

/-- Python `str.strip`: drop leading and trailing whitespace. -/
def pyStrip (s : String) : String :=
  ⟨((s.data.dropWhile Char.isWhitespace).reverse.dropWhile
      Char.isWhitespace).reverse⟩

/-- One row of the `stone_history` table (`StoneHistory` in
`src/database/models.py`): a sighting of a stone. -/
structure HistoryEntry where
  id : Nat
  stone_id : Nat
  telegram_user_id : Nat
  photo_file_id : String
  latitude : Option ℚ
  longitude : Option ℚ
  zip_code : Option String
  created_at : Nat
  deriving Repr, DecidableEq

/-- One row of the `stones` table (`Stone` in `src/database/models.py`). -/
structure StoneRec where
  id : Nat
  name : String
  description : Option String
  photo_file_id : String
  embedding : Option (List ℚ)
  registered_by_user_id : Nat
  created_at : Nat
  deriving Repr, DecidableEq

/-- The persistent store: the `stones` and `stone_history` tables plus the
id sequences the database assigns from. -/
structure DB where
  stones : List StoneRec
  history : List HistoryEntry
  nextStoneId : Nat
  nextHistoryId : Nat
  deriving Repr, DecidableEq

/-- `SIMILARITY_THRESHOLD = 0.82` (`src/bot/handlers.py`). -/
def SIMILARITY_THRESHOLD : ℚ := 82 / 100

/-- `STONES_PER_PAGE = 10` (`src/bot/handlers.py`). -/
def STONES_PER_PAGE : Nat := 10

/-- The `ORDER BY embedding <=> :query LIMIT 1` part of the similarity query in
`find_similar_stone`: the row whose stored embedding minimises the cosine
distance to the query (first such row on ties, matching a stable scan). -/
def nearestByDistance (dist : StoneRec → ℚ) : List StoneRec → Option StoneRec :=
  List.foldl
    (fun acc s =>
      match acc with
      | none => some s
      | some b => if dist s < dist b then some s else some b)
    none

/-- `find_similar_stone` (`src/bot/handlers.py`).  `dist e q` stands for the
pgvector cosine-distance operator `e <=> q`; `similarity = 1 - distance` as in
the SQL `SELECT`.  The whole body runs under `try/except` returning `None`, so
the function takes the execution outcome as `Except Unit DB`: `.error` is any
raised exception (e.g. the database being unreachable). -/
def find_similar_stone (dist : List ℚ → List ℚ → ℚ) (query : List ℚ)
    (run : Except Unit DB) : Option StoneRec :=
  match run with
  | .error _ => none
  | .ok db =>
    let rows := db.stones.filter (fun s => s.embedding.isSome)
    match nearestByDistance (fun s => dist (s.embedding.getD []) query) rows with
    | none => none
    | some row =>
      let similarity := 1 - dist (row.embedding.getD []) query
      if SIMILARITY_THRESHOLD ≤ similarity then some row else none

/-- The per-submission conversation data (`context.user_data` as populated by
`handle_photo` and mutated by the later handlers). -/
structure Session where
  photo_file_id : String
  embedding : List ℚ
  existing_stone : Option Nat
  name : Option String
  description : Option String
  latitude : Option ℚ
  longitude : Option ℚ
  zip_code : Option String
  deriving Repr, DecidableEq

/-- The conversation states of the intake `ConversationHandler`
(`WAITING_NAME`, `WAITING_DESCRIPTION`, `WAITING_LOCATION`,
`ConversationHandler.END`). -/
inductive IntakeState where
  | waitingName
  | waitingDescription
  | waitingLocation
  | terminal
  deriving Repr, DecidableEq

/-- `register_stone` (`src/bot/handlers.py`): inside one session/transaction,
insert a `Stone` (the flush assigns `db.nextStoneId`) and its first
`StoneHistory` row, then commit.  Returns the state after the commit and the
new stone id.  (`data["name"]` is only read on paths where the name was
collected; an absent name is rendered as `""`.) -/
def register_stone (db : DB) (data : Session) (user_id now : Nat) : DB × Nat :=
  let sid := db.nextStoneId
  let stone : StoneRec :=
    { id := sid
      name := data.name.getD ""
      description := data.description
      photo_file_id := data.photo_file_id
      embedding := some data.embedding
      registered_by_user_id := user_id
      created_at := now }
  let h : HistoryEntry :=
    { id := db.nextHistoryId
      stone_id := sid
      telegram_user_id := user_id
      photo_file_id := data.photo_file_id
      latitude := data.latitude
      longitude := data.longitude
      zip_code := data.zip_code
      created_at := now }
  ({ db with
      stones := db.stones ++ [stone]
      history := db.history ++ [h]
      nextStoneId := sid + 1
      nextHistoryId := db.nextHistoryId + 1 }, sid)

/-- `register_stone` as executed: `session.add(stone); session.flush();
session.add(history); session.commit()`.  The two booleans inject a failure of
the flush (the `Stone` insert hitting the database) or of the commit (which
covers the `StoneHistory` insert); in either case the exception propagates
before the commit takes effect, so the observable database is unchanged. -/
def register_stone_run (db : DB) (data : Session) (user_id now : Nat)
    (flushOk commitOk : Bool) : DB × Option Nat :=
  if flushOk then
    if commitOk then
      let r := register_stone db data user_id now
      (r.1, some r.2)
    else (db, none)
  else (db, none)

/-- `add_to_history` (`src/bot/handlers.py`): append one `StoneHistory` row. -/
def add_to_history (db : DB) (stone_id user_id : Nat) (photo_file_id : String)
    (latitude longitude : Option ℚ) (zip_code : Option String) (now : Nat) : DB :=
  { db with
      history := db.history ++
        [{ id := db.nextHistoryId
           stone_id := stone_id
           telegram_user_id := user_id
           photo_file_id := photo_file_id
           latitude := latitude
           longitude := longitude
           zip_code := zip_code
           created_at := now }]
      nextHistoryId := db.nextHistoryId + 1 }

/-- Outcome message of `delete_callback` (`src/bot/handlers.py`). -/
inductive DeleteResult where
  | cancelled
  | notFound
  | deleted (name : String)
  deriving Repr, DecidableEq

/-- The button pressed in the delete confirmation dialog
(`delete_confirm:` / `delete_cancel:` callback data). -/
inductive DeleteAction where
  | cancel
  | confirm
  deriving Repr, DecidableEq

/-- `delete_callback` (`src/bot/handlers.py`): on `delete_cancel` nothing
happens; on `delete_confirm` the stone is looked up with
`WHERE id = stone_id AND registered_by_user_id = user_id`; if absent the
handler reports not-found and changes nothing, otherwise it deletes the
history rows of the stone, then the stone, in one committed transaction. -/
def delete_callback (db : DB) (action : DeleteAction) (stone_id user_id : Nat) :
    DB × DeleteResult :=
  match action with
  | .cancel => (db, .cancelled)
  | .confirm =>
    match db.stones.find?
        (fun s => s.id == stone_id && s.registered_by_user_id == user_id) with
    | none => (db, .notFound)
    | some stone =>
      ({ db with
          stones := db.stones.filter (fun s => !(s.id == stone_id))
          history := db.history.filter (fun h => !(h.stone_id == stone_id)) },
       .deleted stone.name)

/-- The reverse-geocoding payload assembled by `get_location_from_gps`
(`src/services/geocoding.py`). -/
structure GeoData where
  zip_code : Option String
  city : Option String
  country : Option String
  display_name : Option String
  deriving Repr, DecidableEq

/-- `timeout=10.0` of the Nominatim reverse-geocoding request in
`get_location_from_gps` (`src/services/geocoding.py`). -/
def reverseGeocodeTimeoutSeconds : ℚ := 10

/-- `timeout=10.0` of the Nominatim search request in `get_coords_from_zip`
(`src/services/geocoding.py`). -/
def forwardGeocodeTimeoutSeconds : ℚ := 10

/-- `get_location_from_gps` (`src/services/geocoding.py`): the whole HTTP call
runs under `try/except`, so any failure (timeout, HTTP error, bad payload)
yields `None`; a successful response yields the address payload. -/
def get_location_from_gps (response : Except Unit GeoData) : Option GeoData :=
  match response with
  | .ok g => some g
  | .error _ => none

/-- `get_coords_from_zip` (`src/services/geocoding.py`): any failure or an
empty result list yields `None`, a hit yields the coordinates. -/
def get_coords_from_zip (response : Except Unit (Option (ℚ × ℚ))) :
    Option (ℚ × ℚ) :=
  match response with
  | .ok r => r
  | .error _ => none

/-- `handle_location` (`src/bot/handlers.py`), on a location message carrying
coordinates.  `geoCall` is the outcome of `await get_location_from_gps(...)` as
observed at the call site (the inner `try/except` logs and swallows a raised
exception, leaving `zip_code` unset).  If the session targets an existing
stone, a history row is appended; otherwise a new stone is registered. -/
def handle_location (db : DB) (sess : Session) (user_id now : Nat) (lat lon : ℚ)
    (geoCall : Except Unit (Option GeoData)) : DB × IntakeState :=
  let sess := { sess with latitude := some lat, longitude := some lon }
  let sess :=
    match geoCall with
    | .ok (some g) => { sess with zip_code := g.zip_code }
    | .ok none => sess
    | .error _ => sess
  match sess.existing_stone with
  | some sid =>
    (add_to_history db sid user_id sess.photo_file_id sess.latitude
        sess.longitude sess.zip_code now, .terminal)
  | none => ((register_stone db sess user_id now).1, .terminal)

/-- `handle_skip_location` (`src/bot/handlers.py`): complete the intake with no
location arguments (for an existing stone, `add_to_history` is called without
latitude/longitude/zip, i.e. with its `None` defaults). -/
def handle_skip_location (db : DB) (sess : Session) (user_id now : Nat) :
    DB × IntakeState :=
  match sess.existing_stone with
  | some sid =>
    (add_to_history db sid user_id sess.photo_file_id none none none now,
     .terminal)
  | none => ((register_stone db sess user_id now).1, .terminal)

/-- `skip_variants` in `handle_location_fallback` (`src/bot/handlers.py`). -/
def skip_variants : List String :=
  ["пропустить", "skip", "pomiń", "пропуск", "-", "нет", "no", "nie"]

/-- `zip_variants` in `handle_location_fallback` (`src/bot/handlers.py`). -/
def zip_variants : List String :=
  ["ввести zip код", "ввести zip", "zip", "zip код", "enter zip", "wpisz kod"]

/-- `text.replace("-", "").replace(" ", "").isalnum()`: Python `isalnum` is
true iff the string is nonempty and every character is alphanumeric. -/
def strippedIsAlnum (text : String) : Bool :=
  let stripped := text.toList.filter (fun c => !(c == '-' || c == ' '))
  !stripped.isEmpty && stripped.all Char.isAlphanum

/-- The ZIP-shape test of `handle_location_fallback`:
`len(text) >= 3 and len(text) <= 10 and
 text.replace("-", "").replace(" ", "").isalnum()`. -/
def looksLikeZip (text : String) : Bool :=
  3 ≤ text.length && text.length ≤ 10 && strippedIsAlnum text

/-- The first guard of `handle_location_fallback`:
`text_lower == btn_skip or text_lower in skip_variants`. -/
def isSkipSignal (textLower btnSkip : String) : Bool :=
  textLower == pyLower btnSkip || skip_variants.contains textLower

/-- The second guard of `handle_location_fallback`:
`text_lower == btn_zip or text_lower in zip_variants`. -/
def isZipRequest (textLower btnZip : String) : Bool :=
  textLower == pyLower btnZip || zip_variants.contains textLower

/-- Which branch of `handle_location_fallback` ran (the branches in source
order: skip signal, zip-entry request, ZIP-shaped input, reprompt). -/
inductive LocOutcome where
  | skipped
  | askZip
  | acceptedZip (zip : String)
  | reprompt
  deriving Repr, DecidableEq

/-- The language-dependent environment of `handle_location_fallback`: the
translated `btn_skip` / `btn_enter_zip` button captions and the outcome of
`await get_coords_from_zip(text)`. -/
structure LocEnv where
  btnSkip : String
  btnZip : String
  zipLookup : Option (ℚ × ℚ)
  deriving Repr, DecidableEq

/-- `handle_location_fallback` (`src/bot/handlers.py`): text input in
`WAITING_LOCATION`.  In source order: a skip signal (the translated skip
button or a hard-coded variant) completes via `handle_skip_location`; a
zip-entry request (the translated zip button or a hard-coded variant)
reprompts for the code and stays; a ZIP-shaped token is geocoded best-effort
and completes the intake; anything else is reprompted and stays. -/
def handle_location_fallback (db : DB) (sess : Session) (user_id now : Nat)
    (input : String) (env : LocEnv) : IntakeState × DB × LocOutcome :=
  let text := pyStrip input
  let textLower := pyLower text
  if isSkipSignal textLower env.btnSkip then
    let r := handle_skip_location db sess user_id now
    (r.2, r.1, .skipped)
  else if isZipRequest textLower env.btnZip then
    (.waitingLocation, db, .askZip)
  else if looksLikeZip text then
    let latlon := match env.zipLookup with
      | some (la, lo) => (some la, some lo)
      | none => ((none : Option ℚ), (none : Option ℚ))
    let sess := { sess with
      zip_code := some text, latitude := latlon.1, longitude := latlon.2 }
    match sess.existing_stone with
    | some sid =>
      (.terminal,
       add_to_history db sid user_id sess.photo_file_id latlon.1 latlon.2
         (some text) now,
       .acceptedZip text)
    | none =>
      (.terminal, (register_stone db sess user_id now).1, .acceptedZip text)
  else
    (.waitingLocation, db, .reprompt)

/-- The decision tail of `handle_photo` (`src/bot/handlers.py`), after the
photo was accepted (subject isolated, classified as a stone, embedded):
`context.user_data` is rebuilt from scratch, and the resolution result decides
the next conversation state: a match stores the found stone and jumps to
`WAITING_LOCATION`; no match goes to `WAITING_NAME`. -/
def handle_photo_decision (photo_file_id : String) (embedding : List ℚ)
    (found : Option StoneRec) : IntakeState × Session :=
  let base : Session :=
    { photo_file_id := photo_file_id
      embedding := embedding
      existing_stone := none
      name := none
      description := none
      latitude := none
      longitude := none
      zip_code := none }
  match found with
  | some stone => (.waitingLocation, { base with existing_stone := some stone.id })
  | none => (.waitingName, base)

/-- `handle_name` (`src/bot/handlers.py`): a stripped name shorter than 2
characters reprompts and stays in `WAITING_NAME`; otherwise the name is stored
and the conversation moves to `WAITING_DESCRIPTION`. -/
def handle_name (sess : Session) (input : String) : IntakeState × Session :=
  let name := pyStrip input
  if name.length < 2 then (.waitingName, sess)
  else (.waitingDescription, { sess with name := some name })

/-- `handle_description` (`src/bot/handlers.py`): the skip button stores no
description, any other text is stored; either way the conversation moves to
`WAITING_LOCATION`. -/
def handle_description (sess : Session) (input : String) (btnSkip : String) :
    IntakeState × Session :=
  let text := pyStrip input
  let description := if text == btnSkip then none else some text
  (.waitingLocation, { sess with description := description })

/-- One inbound update inside the intake conversation. -/
inductive ConvInput where
  | textMsg (s : String)
  | locationMsg (lat lon : ℚ)
  | cancelCommand
  deriving Repr, DecidableEq

/-- The external collaborators a single intake step may consult: the
translated button captions and the geocoding outcomes. -/
structure Env where
  btnSkip : String
  btnZip : String
  reverseGeo : Except Unit (Option GeoData)
  zipLookup : Option (ℚ × ℚ)

/-- `cancel` (`src/bot/handlers.py`): reply and end the conversation; the
handler performs no database access. -/
def cancel (db : DB) : DB × IntakeState := (db, .terminal)

/-- The routing of `setup_handlers` (`src/bot/handlers.py`) inside the intake
conversation: each `WAITING_*` state handles text (non-command) messages,
`WAITING_LOCATION` additionally handles location messages, and the
`/cancel` command is a fallback available from every state.  An update no
handler matches leaves the state and the database unchanged. -/
def step_intake (st : IntakeState) (sess : Session) (db : DB)
    (user_id now : Nat) (inp : ConvInput) (env : Env) :
    IntakeState × Session × DB :=
  match inp with
  | .cancelCommand =>
    let r := cancel db
    (r.2, sess, r.1)
  | .textMsg s =>
    match st with
    | .waitingName =>
      let r := handle_name sess s
      (r.1, r.2, db)
    | .waitingDescription =>
      let r := handle_description sess s env.btnSkip
      (r.1, r.2, db)
    | .waitingLocation =>
      let r := handle_location_fallback db sess user_id now s
        ⟨env.btnSkip, env.btnZip, env.zipLookup⟩
      (r.1, sess, r.2.1)
    | .terminal => (st, sess, db)
  | .locationMsg lat lon =>
    match st with
    | .waitingLocation =>
      let r := handle_location db sess user_id now lat lon env.reverseGeo
      (r.2, sess, r.1)
    | _ => (st, sess, db)

/-- The `history` relationship of `Stone` (`src/database/models.py`) is
declared with `order_by="desc(StoneHistory.created_at)"`: loading a stone with
its history yields the stone's history rows sorted by `created_at`
descending. -/
def stone_history_loaded (db : DB) (stone_id : Nat) : List HistoryEntry :=
  List.insertionSort (fun a b => b.created_at ≤ a.created_at)
    (db.history.filter (fun h => h.stone_id == stone_id))

/-- One plotted point of the stone map (`src/services/map_service.py`). -/
structure MapPoint where
  lat : ℚ
  lon : ℚ
  date : Nat
  deriving Repr, DecidableEq

/-- The coordinate filter of `generate_stone_map_image`
(`src/services/map_service.py`): keep the entries that carry both
coordinates. -/
def map_points (history : List HistoryEntry) : List MapPoint :=
  history.filterMap (fun h =>
    match h.latitude, h.longitude with
    | some la, some lo => some { lat := la, lon := lo, date := h.created_at }
    | _, _ => none)

/-- `generate_stone_map_image` then sorts the points by date
(`points.sort(key=lambda x: x["date"])`, a stable ascending sort) before
plotting markers in order. -/
def plotted_points (history : List HistoryEntry) : List MapPoint :=
  List.insertionSort (fun a b => a.date ≤ b.date) (map_points history)

/-- Marker colour choice of `generate_stone_map_image`: index 0 green, last
index red, others blue. -/
def marker_color (i n : Nat) : String :=
  if i = 0 then "#22c55e" else if i = n - 1 then "#ef4444" else "#3b82f6"

/-- The stones listed by `show_my_stones` (`src/bot/handlers.py`):
`SELECT ... WHERE registered_by_user_id = user_id ORDER BY id`. -/
def list_by_registrant (db : DB) (user_id : Nat) : List StoneRec :=
  List.insertionSort (fun a b => a.id ≤ b.id)
    (db.stones.filter (fun s => s.registered_by_user_id == user_id))

/-- `total_pages = (total_stones + STONES_PER_PAGE - 1) // STONES_PER_PAGE`. -/
def total_pages (total : Nat) : Nat :=
  (total + STONES_PER_PAGE - 1) / STONES_PER_PAGE

/-- `page = max(0, min(page, total_pages - 1))` — the requested page index
(an arbitrary integer parsed from callback data) clamped to the valid
range. -/
def clamp_page (page : Int) (tp : Nat) : Nat :=
  (max 0 (min page ((tp : Int) - 1))).toNat

/-- The pagination of `show_my_stones` on a nonempty stone list (the handler
returns early when the user has no stones): the served page index and the
slice `stones[start_idx:end_idx]`. -/
def show_page (stones : List StoneRec) (page : Int) : Nat × List StoneRec :=
  let total := stones.length
  let tp := total_pages total
  let p := clamp_page page tp
  let startIdx := p * STONES_PER_PAGE
  let endIdx := min (startIdx + STONES_PER_PAGE) total
  (p, (stones.drop startIdx).take (endIdx - startIdx))

section Helpers

/-- In a `Pairwise r` list with reflexive `r`, the head is `r`-below every
member. -/
theorem pairwise_head_rel {α : Type} {r : α → α → Prop} (hrefl : ∀ a, r a a)
    {l : List α} (hs : l.Pairwise r) {f : α} (hf : l.head? = some f) :
    ∀ p ∈ l, r f p := by
  cases l with
  | nil => simp at hf
  | cons x t =>
    simp only [List.head?_cons, Option.some.injEq] at hf
    subst hf
    intro p hp
    rcases List.mem_cons.mp hp with h | h
    · subst h; exact hrefl _
    · exact (List.pairwise_cons.mp hs).1 p h

/-- In a `Pairwise r` list with reflexive `r`, the last element is `r`-above
every member. -/
theorem pairwise_getLast_rel {α : Type} {r : α → α → Prop} (hrefl : ∀ a, r a a) :
    ∀ {l : List α}, l.Pairwise r → ∀ {m : α}, l.getLast? = some m →
      ∀ p ∈ l, r p m := by
  intro l
  induction l with
  | nil => intro _ m hm; simp at hm
  | cons x t ih =>
    intro hs m hm p hp
    cases t with
    | nil =>
      simp only [List.getLast?_singleton, Option.some.injEq] at hm
      subst hm
      rcases List.mem_singleton.mp hp with h
      subst h; exact hrefl _
    | cons y t' =>
      have hm' : (y :: t').getLast? = some m := by
        simpa [List.getLast?_cons_cons] using hm
      have hmem : m ∈ y :: t' :=
        List.mem_of_mem_getLast? (by simp [Option.mem_def, hm'])
      rcases List.mem_cons.mp hp with h | h
      · subst h
        exact (List.pairwise_cons.mp hs).1 m hmem
      · exact ih (List.pairwise_cons.mp hs).2 hm' p h

instance : IsTotal HistoryEntry (fun a b => b.created_at ≤ a.created_at) :=
  ⟨fun a b => Nat.le_total b.created_at a.created_at⟩

instance : IsTrans HistoryEntry (fun a b => b.created_at ≤ a.created_at) :=
  ⟨fun _ _ _ hab hbc => le_trans hbc hab⟩

instance : IsTotal MapPoint (fun a b => a.date ≤ b.date) :=
  ⟨fun a b => Nat.le_total a.date b.date⟩

instance : IsTrans MapPoint (fun a b => a.date ≤ b.date) :=
  ⟨fun _ _ _ hab hbc => le_trans hab hbc⟩

instance : IsTotal StoneRec (fun a b => a.id ≤ b.id) :=
  ⟨fun a b => Nat.le_total a.id b.id⟩

instance : IsTrans StoneRec (fun a b => a.id ≤ b.id) :=
  ⟨fun _ _ _ hab hbc => le_trans hab hbc⟩

end Helpers

/-- C1: resolution returns the nearest stone when its similarity
`1 - cosine_distance` is at least `SIMILARITY_THRESHOLD = 0.82` (the boundary
is inclusive on the match side, since the code tests
`similarity >= SIMILARITY_THRESHOLD`), and no match when the index holds no
embedded stone or the best similarity is strictly below the threshold. -/
theorem C1_resolution_threshold (dist : List ℚ → List ℚ → ℚ) (query : List ℚ)
    (db : DB) :
    (db.stones.filter (fun s => s.embedding.isSome) = [] →
      find_similar_stone dist query (.ok db) = none) ∧
    (∀ row, nearestByDistance (fun s => dist (s.embedding.getD []) query)
        (db.stones.filter (fun s => s.embedding.isSome)) = some row →
      (SIMILARITY_THRESHOLD ≤ 1 - dist (row.embedding.getD []) query →
        find_similar_stone dist query (.ok db) = some row) ∧
      (1 - dist (row.embedding.getD []) query < SIMILARITY_THRESHOLD →
        find_similar_stone dist query (.ok db) = none)) := by
  constructor
  · intro h
    simp [find_similar_stone, h, nearestByDistance]
  · intro row hrow
    constructor
    · intro hle
      simp [find_similar_stone, hrow, hle]
    · intro hlt
      simp [find_similar_stone, hrow, not_le.mpr hlt]

/-- A sample stone used by concrete instantiations below. -/
def stoneA : StoneRec :=
  { id := 7, name := "Dragonfly", description := none, photo_file_id := "p7"
    embedding := some [1], registered_by_user_id := 5, created_at := 0 }

/-- A one-stone database used by concrete instantiations below. -/
def dbA : DB := { stones := [stoneA], history := [], nextStoneId := 8, nextHistoryId := 1 }

/-- C1 at concrete inputs: with one stone at cosine distance `0.18` the
similarity is exactly `0.82` and the stone is matched; at distance
`0.180001` the similarity `0.819999` falls below the threshold and no match
is returned. -/
theorem C1_resolution_threshold_witness :
    find_similar_stone (fun _ _ => 18 / 100) [1] (.ok dbA) = some stoneA ∧
    find_similar_stone (fun _ _ => 180001 / 1000000) [1] (.ok dbA) = none := by
  constructor
  · exact ((C1_resolution_threshold (fun _ _ => 18 / 100) [1] dbA).2 stoneA
      rfl).1 (by norm_num [SIMILARITY_THRESHOLD])
  · exact ((C1_resolution_threshold (fun _ _ => 180001 / 1000000) [1] dbA).2 stoneA
      rfl).2 (by norm_num [SIMILARITY_THRESHOLD])

/-- C9: when the similarity query raises (`.error`), `find_similar_stone`
returns `None`, and `handle_photo` treats this exactly like a genuine no-match:
the session records no existing stone, the conversation enters `WAITING_NAME`,
and the eventual completion registers a brand-new stone. -/
theorem C9_index_failure_is_no_match (dist : List ℚ → List ℚ → ℚ)
    (query : List ℚ) (e : Unit) (pid : String) (emb : List ℚ)
    (db : DB) (uid now : Nat) (lat lon : ℚ) (geo : Except Unit (Option GeoData)) :
    find_similar_stone dist query (.error e) = none ∧
    (handle_photo_decision pid emb (find_similar_stone dist query (.error e))).1
      = .waitingName ∧
    (handle_photo_decision pid emb
      (find_similar_stone dist query (.error e))).2.existing_stone = none ∧
    (handle_location db
        (handle_photo_decision pid emb
          (find_similar_stone dist query (.error e))).2
        uid now lat lon geo).1.stones.length = db.stones.length + 1 := by
  refine ⟨rfl, rfl, rfl, ?_⟩
  cases geo with
  | error e' =>
    simp [handle_location, handle_photo_decision, find_similar_stone,
      register_stone]
  | ok o => cases o <;>
      simp [handle_location, handle_photo_decision, find_similar_stone,
        register_stone]

/-- C7: from each non-terminal conversation state, the `/cancel` fallback ends
the conversation and performs no registry write: the database (stones, history
and thereby the identity index) is returned unchanged. -/
theorem C7_cancel_safety (sess : Session) (db : DB) (uid now : Nat) (env : Env) :
    step_intake .waitingName sess db uid now .cancelCommand env
      = (.terminal, sess, db) ∧
    step_intake .waitingDescription sess db uid now .cancelCommand env
      = (.terminal, sess, db) ∧
    step_intake .waitingLocation sess db uid now .cancelCommand env
      = (.terminal, sess, db) :=
  ⟨rfl, rfl, rfl⟩

/-- Two sightings of stone 1, observed at times 1 and 2. -/
def entryEarly : HistoryEntry :=
  { id := 1, stone_id := 1, telegram_user_id := 5, photo_file_id := "a"
    latitude := some 10, longitude := some 20, zip_code := none, created_at := 1 }

/-- The later sighting of stone 1. -/
def entryLate : HistoryEntry :=
  { id := 2, stone_id := 1, telegram_user_id := 6, photo_file_id := "b"
    latitude := some 11, longitude := some 21, zip_code := none, created_at := 2 }

/-- A database holding stone 1 with the two sightings above, the earlier row
stored first. -/
def dbTwoSightings : DB :=
  { stones := [{ id := 1, name := "Amber", description := none,
                 photo_file_id := "p1", embedding := some [1],
                 registered_by_user_id := 5, created_at := 0 }]
    history := [entryEarly, entryLate]
    nextStoneId := 2
    nextHistoryId := 3 }

/-- C2 counterexample: the `history` relationship is declared
`order_by="desc(StoneHistory.created_at)"`, so retrieving stone 1 with its
sightings yields them latest-first — `[entryLate, entryEarly]` — which is not
sorted ascending by `observed_at` as the claim states. -/
theorem C2_counterexample :
    stone_history_loaded dbTwoSightings 1 = [entryLate, entryEarly] ∧
    ¬ (stone_history_loaded dbTwoSightings 1).Pairwise
        (fun a b => a.created_at ≤ b.created_at) := by
  constructor
  · rfl
  · intro h
    have := (List.pairwise_cons.mp (by
      rw [show stone_history_loaded dbTwoSightings 1 = [entryLate, entryEarly]
        from rfl] at h
      exact h)).1 entryEarly (by simp)
    simp [entryLate, entryEarly] at this

/-- C2 amended: retrieval returns a stone's sightings sorted descending by
`observed_at` (`created_at`); the map renderer independently re-sorts the
coordinate-bearing points ascending by date, so its first plotted point is the
earliest such sighting and its last plotted point is the latest. -/
theorem C2_history_ordering (db : DB) (stone_id : Nat)
    (history : List HistoryEntry) :
    (stone_history_loaded db stone_id).Pairwise
      (fun a b => b.created_at ≤ a.created_at) ∧
    (plotted_points history).Pairwise (fun a b => a.date ≤ b.date) ∧
    (∀ f, (plotted_points history).head? = some f →
      ∀ p ∈ map_points history, f.date ≤ p.date) ∧
    (∀ l, (plotted_points history).getLast? = some l →
      ∀ p ∈ map_points history, p.date ≤ l.date) := by
  have hsortedDesc :
      (stone_history_loaded db stone_id).Pairwise
        (fun a b => b.created_at ≤ a.created_at) :=
    List.sorted_insertionSort _ _
  have hsortedAsc :
      (plotted_points history).Pairwise (fun a b => a.date ≤ b.date) :=
    List.sorted_insertionSort _ _
  refine ⟨hsortedDesc, hsortedAsc, ?_, ?_⟩
  · intro f hf p hp
    exact @pairwise_head_rel MapPoint (fun a b => a.date ≤ b.date)
      (fun a => le_refl a.date) _ hsortedAsc f hf p
      ((List.perm_insertionSort _ _).mem_iff.mpr hp)
  · intro l hl p hp
    exact @pairwise_getLast_rel MapPoint (fun a b => a.date ≤ b.date)
      (fun a => le_refl a.date) _ hsortedAsc l hl p
      ((List.perm_insertionSort _ _).mem_iff.mpr hp)

/-- C2 amended, at the concrete two-sighting database: retrieval yields the
later sighting first, and the map plots the earlier point first and the later
point last. -/
theorem C2_history_ordering_witness :
    (stone_history_loaded dbTwoSightings 1).Pairwise
      (fun a b => b.created_at ≤ a.created_at) ∧
    (plotted_points dbTwoSightings.history).head?.map (·.date) = some 1 ∧
    (plotted_points dbTwoSightings.history).getLast?.map (·.date) = some 2 ∧
    (∀ p ∈ map_points dbTwoSightings.history,
      (1 : Nat) ≤ p.date ∧ p.date ≤ 2) := by
  have H := C2_history_ordering dbTwoSightings 1 dbTwoSightings.history
  exact ⟨H.1, rfl, rfl, fun p hp =>
    ⟨H.2.2.1 ⟨10, 20, 1⟩ rfl p hp, H.2.2.2 ⟨11, 21, 2⟩ rfl p hp⟩⟩

/-- C3: a `Matched` resolution sends the intake straight to
`WAITING_LOCATION` with the matched stone as target and no name or
description collected; a `NoMatch` resolution sends it to `WAITING_NAME`.
On completion, a session targeting an existing stone appends one sighting to
that stone and creates no stone, while a session with no target creates a new
stone together with its originating sighting. -/
theorem C3_entry_branches (pid : String) (emb : List ℚ) (stone : StoneRec)
    (db : DB) (uid now : Nat) (lat lon : ℚ) (geo : Except Unit (Option GeoData)) :
    (handle_photo_decision pid emb (some stone)).1 = .waitingLocation ∧
    (handle_photo_decision pid emb (some stone)).2.existing_stone
      = some stone.id ∧
    (handle_photo_decision pid emb (some stone)).2.name = none ∧
    (handle_photo_decision pid emb (some stone)).2.description = none ∧
    (handle_photo_decision pid emb none).1 = .waitingName ∧
    (handle_photo_decision pid emb none).2.existing_stone = none ∧
    (∀ sess : Session, sess.existing_stone = some stone.id →
      (handle_location db sess uid now lat lon geo).1.stones = db.stones ∧
      ∃ h : HistoryEntry,
        (handle_location db sess uid now lat lon geo).1.history
          = db.history ++ [h] ∧ h.stone_id = stone.id) ∧
    (∀ sess : Session, sess.existing_stone = none →
      ∃ (s : StoneRec) (h : HistoryEntry),
        (handle_location db sess uid now lat lon geo).1.stones
          = db.stones ++ [s] ∧
        (handle_location db sess uid now lat lon geo).1.history
          = db.history ++ [h] ∧
        h.stone_id = s.id) := by
  refine ⟨rfl, rfl, rfl, rfl, rfl, rfl, ?_, ?_⟩
  · intro sess hsess
    cases geo with
    | error e =>
      refine ⟨?_, ?_⟩ <;>
        simp [handle_location, hsess, add_to_history]
    | ok o =>
      cases o <;> refine ⟨?_, ?_⟩ <;>
        simp [handle_location, hsess, add_to_history]
  · intro sess hsess
    cases geo with
    | error e =>
      refine ⟨(⟨db.nextStoneId, sess.name.getD "", sess.description,
          sess.photo_file_id, some sess.embedding, uid, now⟩ : StoneRec),
        (⟨db.nextHistoryId, db.nextStoneId, uid, sess.photo_file_id,
          some lat, some lon, sess.zip_code, now⟩ : HistoryEntry),
        ?_, ?_, rfl⟩ <;>
        simp [handle_location, hsess, register_stone]
    | ok o =>
      cases o with
      | none =>
        refine ⟨(⟨db.nextStoneId, sess.name.getD "", sess.description,
            sess.photo_file_id, some sess.embedding, uid, now⟩ : StoneRec),
          (⟨db.nextHistoryId, db.nextStoneId, uid, sess.photo_file_id,
            some lat, some lon, sess.zip_code, now⟩ : HistoryEntry),
          ?_, ?_, rfl⟩ <;>
          simp [handle_location, hsess, register_stone]
      | some g =>
        refine ⟨(⟨db.nextStoneId, sess.name.getD "", sess.description,
            sess.photo_file_id, some sess.embedding, uid, now⟩ : StoneRec),
          (⟨db.nextHistoryId, db.nextStoneId, uid, sess.photo_file_id,
            some lat, some lon, g.zip_code, now⟩ : HistoryEntry),
          ?_, ?_, rfl⟩ <;>
          simp [handle_location, hsess, register_stone]

/-- A session that targets stone 7 (as built by `handle_photo` on a match). -/
def sessMatched : Session :=
  { photo_file_id := "p", embedding := [1], existing_stone := some 7
    name := none, description := none, latitude := none, longitude := none
    zip_code := none }

/-- A session for a new stone, name and description collected. -/
def sessNew : Session :=
  { photo_file_id := "p", embedding := [1], existing_stone := none
    name := some "Dragonfly", description := none, latitude := none
    longitude := none, zip_code := none }

/-- C3 at concrete inputs: the matched entry branch and both completion
behaviours, on the one-stone database `dbA`. -/
theorem C3_entry_branches_witness :
    (handle_photo_decision "p" [1] (some stoneA)).1 = .waitingLocation ∧
    ((handle_location dbA sessMatched 5 100 52 21 (.ok none)).1.stones
        = dbA.stones ∧
      ∃ h : HistoryEntry,
        (handle_location dbA sessMatched 5 100 52 21 (.ok none)).1.history
          = dbA.history ++ [h] ∧ h.stone_id = stoneA.id) ∧
    (∃ (s : StoneRec) (h : HistoryEntry),
      (handle_location dbA sessNew 5 100 52 21 (.ok none)).1.stones
        = dbA.stones ++ [s] ∧
      (handle_location dbA sessNew 5 100 52 21 (.ok none)).1.history
        = dbA.history ++ [h] ∧
      h.stone_id = s.id) := by
  have H := C3_entry_branches "p" [1] stoneA dbA 5 100 52 21 (.ok none)
  exact ⟨H.1, H.2.2.2.2.2.2.1 sessMatched rfl, H.2.2.2.2.2.2.2 sessNew rfl⟩

/-- C4: stone creation is atomic.  If the run reports no id (a failed flush or
commit), the database is unchanged; if it reports an id, both the stone and
its first sighting are present; and the run preserves the invariant that
every stone has at least one sighting. -/
theorem C4_atomic_creation (db : DB) (data : Session) (uid now : Nat)
    (flushOk commitOk : Bool) :
    ((register_stone_run db data uid now flushOk commitOk).2 = none →
      (register_stone_run db data uid now flushOk commitOk).1 = db) ∧
    (∀ sid, (register_stone_run db data uid now flushOk commitOk).2 = some sid →
      (∃ s ∈ (register_stone_run db data uid now flushOk commitOk).1.stones,
        s.id = sid) ∧
      (∃ h ∈ (register_stone_run db data uid now flushOk commitOk).1.history,
        h.stone_id = sid)) ∧
    ((∀ s ∈ db.stones, ∃ h ∈ db.history, h.stone_id = s.id) →
      ∀ s ∈ (register_stone_run db data uid now flushOk commitOk).1.stones,
        ∃ h ∈ (register_stone_run db data uid now flushOk commitOk).1.history,
          h.stone_id = s.id) := by
  cases flushOk with
  | false =>
    refine ⟨fun _ => rfl, ?_, ?_⟩
    · intro sid hsid; simp [register_stone_run] at hsid
    · intro hinv s hs; exact hinv s hs
  | true =>
    cases commitOk with
    | false =>
      refine ⟨fun _ => rfl, ?_, ?_⟩
      · intro sid hsid; simp [register_stone_run] at hsid
      · intro hinv s hs; exact hinv s hs
    | true =>
      refine ⟨?_, ?_, ?_⟩
      · intro h; simp [register_stone_run] at h
      · intro sid hsid
        have hsid' : db.nextStoneId = sid := by
          simpa [register_stone_run, register_stone] using hsid
        subst hsid'
        constructor
        · refine ⟨(⟨db.nextStoneId, data.name.getD "", data.description,
            data.photo_file_id, some data.embedding, uid, now⟩ : StoneRec),
            ?_, rfl⟩
          simp [register_stone_run, register_stone]
        · refine ⟨(⟨db.nextHistoryId, db.nextStoneId, uid, data.photo_file_id,
            data.latitude, data.longitude, data.zip_code, now⟩ : HistoryEntry),
            ?_, rfl⟩
          simp [register_stone_run, register_stone]
      · intro hinv s hs
        simp only [register_stone_run, if_true, register_stone,
          List.mem_append] at hs ⊢
        rcases hs with hs | hs
        · obtain ⟨h, hh, hid⟩ := hinv s hs
          exact ⟨h, Or.inl hh, hid⟩
        · simp only [List.mem_singleton] at hs
          subst hs
          exact ⟨(⟨db.nextHistoryId, db.nextStoneId, uid, data.photo_file_id,
            data.latitude, data.longitude, data.zip_code, now⟩ : HistoryEntry),
            Or.inr (by simp), rfl⟩

/-- C4 at concrete inputs: a successful run persists stone 8 with a sighting;
a run whose commit fails leaves `dbA` unchanged. -/
theorem C4_atomic_creation_witness :
    ((∃ s ∈ (register_stone_run dbA sessNew 5 100 true true).1.stones,
        s.id = 8) ∧
      (∃ h ∈ (register_stone_run dbA sessNew 5 100 true true).1.history,
        h.stone_id = 8)) ∧
    (register_stone_run dbA sessNew 5 100 true false).1 = dbA := by
  exact ⟨(C4_atomic_creation dbA sessNew 5 100 true true).2.1 8 rfl,
    (C4_atomic_creation dbA sessNew 5 100 true false).1 rfl⟩

/-- C5: confirming deletion removes the stone and all its sightings when the
stone exists and is owned by the requester, leaving every other stone and
sighting in place; when no stone with that id is owned by the requester
(absent, or registered by another user), nothing is deleted and the database
is unchanged. -/
theorem C5_delete_ownership (db : DB) (stone_id user_id : Nat) :
    ((∀ s ∈ db.stones, ¬(s.id = stone_id ∧ s.registered_by_user_id = user_id)) →
      delete_callback db .confirm stone_id user_id = (db, .notFound)) ∧
    (∀ s ∈ db.stones, s.id = stone_id → s.registered_by_user_id = user_id →
      (∃ nm, (delete_callback db .confirm stone_id user_id).2 = .deleted nm) ∧
      (∀ t ∈ (delete_callback db .confirm stone_id user_id).1.stones,
        t.id ≠ stone_id) ∧
      (∀ h ∈ (delete_callback db .confirm stone_id user_id).1.history,
        h.stone_id ≠ stone_id) ∧
      (∀ t ∈ db.stones, t.id ≠ stone_id →
        t ∈ (delete_callback db .confirm stone_id user_id).1.stones) ∧
      (∀ h ∈ db.history, h.stone_id ≠ stone_id →
        h ∈ (delete_callback db .confirm stone_id user_id).1.history)) := by
  constructor
  · intro hnone
    have hfind : db.stones.find?
        (fun s => s.id == stone_id && s.registered_by_user_id == user_id)
        = none := by
      rw [List.find?_eq_none]
      intro s hs
      have := hnone s hs
      simp only [Bool.and_eq_true, beq_iff_eq]
      intro hcontra
      exact this hcontra
    simp [delete_callback, hfind]
  · intro s hs hid howner
    have hsome : ∃ stone, db.stones.find?
        (fun t => t.id == stone_id && t.registered_by_user_id == user_id)
        = some stone := by
      cases hfind : db.stones.find?
          (fun t => t.id == stone_id && t.registered_by_user_id == user_id) with
      | none =>
        exfalso
        have := List.find?_eq_none.mp hfind s hs
        simp [hid, howner] at this
      | some stone => exact ⟨stone, rfl⟩
    obtain ⟨stone, hfind⟩ := hsome
    refine ⟨⟨stone.name, by simp [delete_callback, hfind]⟩, ?_, ?_, ?_, ?_⟩
    · intro t ht
      simp only [delete_callback, hfind, List.mem_filter, Bool.not_eq_true',
        beq_eq_false_iff_ne, ne_eq] at ht
      exact ht.2
    · intro h hh
      simp only [delete_callback, hfind, List.mem_filter, Bool.not_eq_true',
        beq_eq_false_iff_ne, ne_eq] at hh
      exact hh.2
    · intro t ht hne
      simp only [delete_callback, hfind, List.mem_filter, Bool.not_eq_true',
        beq_eq_false_iff_ne, ne_eq]
      exact ⟨ht, hne⟩
    · intro h hh hne
      simp only [delete_callback, hfind, List.mem_filter, Bool.not_eq_true',
        beq_eq_false_iff_ne, ne_eq]
      exact ⟨hh, hne⟩

/-- A two-stone database: stone 7 owned by user 5 with one sighting, stone 9
owned by user 6 with one sighting. -/
def dbTwoOwners : DB :=
  { stones := [stoneA,
      { id := 9, name := "Fern", description := none, photo_file_id := "p9",
        embedding := some [2], registered_by_user_id := 6, created_at := 0 }]
    history := [⟨1, 7, 5, "p7", none, none, none, 1⟩,
      ⟨2, 9, 6, "p9", none, none, none, 2⟩]
    nextStoneId := 10
    nextHistoryId := 3 }

/-- C5 at concrete inputs: user 6 cannot delete stone 7 (registered by
user 5) — the database is unchanged; user 5 can, and afterwards no stone or
sighting with id 7 remains while stone 9 and its sighting survive. -/
theorem C5_delete_ownership_witness :
    delete_callback dbTwoOwners .confirm 7 6 = (dbTwoOwners, .notFound) ∧
    (∃ nm, (delete_callback dbTwoOwners .confirm 7 5).2 = .deleted nm) ∧
    (∀ t ∈ (delete_callback dbTwoOwners .confirm 7 5).1.stones, t.id ≠ 7) ∧
    (∀ h ∈ (delete_callback dbTwoOwners .confirm 7 5).1.history,
      h.stone_id ≠ 7) := by
  have H2 := (C5_delete_ownership dbTwoOwners 7 5).2 stoneA
    (List.mem_cons_self _ _) rfl rfl
  exact ⟨(C5_delete_ownership dbTwoOwners 7 6).1 (by decide),
    H2.1, H2.2.1, H2.2.2.1⟩

/-- C6: the listing is sorted ascending by stone id; the served page index is
always clamped into `[0, total_pages - 1]`; and for 23 stones, page 0 holds
10 items, page 2 holds 3 items, and a request for page 5 is served as
page 2. -/
theorem C6_pagination (db : DB) (user_id : Nat) (page : Int) :
    List.Sorted (fun a b : StoneRec => a.id ≤ b.id)
      (list_by_registrant db user_id) ∧
    (0 < (list_by_registrant db user_id).length →
      clamp_page page (total_pages (list_by_registrant db user_id).length) ≤
        total_pages (list_by_registrant db user_id).length - 1) ∧
    (∀ stones : List StoneRec, stones.length = 23 →
      (show_page stones 0).2.length = 10 ∧
      (show_page stones 2).2.length = 3 ∧
      (show_page stones 5).1 = 2) := by
  refine ⟨List.sorted_insertionSort _ _, ?_, ?_⟩
  · intro hlen
    simp only [clamp_page, total_pages, STONES_PER_PAGE]
    omega
  · intro stones hlen
    refine ⟨?_, ?_, ?_⟩ <;>
      simp [show_page, clamp_page, total_pages, STONES_PER_PAGE, hlen]

/-- A 23-stone list (ids 0‥22, all registered by user 5). -/
def stones23 : List StoneRec :=
  (List.range 23).map (fun i =>
    { id := i, name := "s", description := none, photo_file_id := "p",
      embedding := none, registered_by_user_id := 5, created_at := 0 })

/-- A database holding the 23 stones of `stones23`. -/
def db23 : DB :=
  { stones := stones23, history := [], nextStoneId := 23, nextHistoryId := 1 }

/-- C6 at concrete inputs: the 23-stone listing is sorted, a request for page
7 is clamped into range, and the 23-stone page sizes are 10 / 3 with page 5
served as page 2. -/
theorem C6_pagination_witness :
    List.Sorted (fun a b : StoneRec => a.id ≤ b.id)
      (list_by_registrant db23 5) ∧
    clamp_page 7 (total_pages (list_by_registrant db23 5).length) ≤
      total_pages (list_by_registrant db23 5).length - 1 ∧
    (show_page stones23 0).2.length = 10 ∧
    (show_page stones23 2).2.length = 3 ∧
    (show_page stones23 5).1 = 2 := by
  have H := C6_pagination db23 5 7
  have h23 : stones23.length = 23 := by
    simp [stones23]
  exact ⟨H.1, H.2.1 (by decide), (H.2.2 stones23 h23).1,
    (H.2.2 stones23 h23).2.1, (H.2.2 stones23 h23).2.2⟩

/-- The location-state environment used in concrete instantiations: Polish
button captions, ZIP lookup failing (best-effort). -/
def envPL : LocEnv :=
  { btnSkip := "Pomin", btnZip := "Wpisz kod pocztowy", zipLookup := none }

/-- C8 counterexample: the input `"zip"` is a postal-code-shaped token (3
alphanumeric characters) and is not a skip signal, yet
`handle_location_fallback` does not accept it as a postal code: the
zip-entry-request branch fires first, the handler prompts for a code and the
state does not advance. -/
theorem C8_counterexample :
    looksLikeZip "zip" = true ∧
    isSkipSignal "zip" envPL.btnSkip = false ∧
    (handle_location_fallback dbA sessMatched 5 100 "zip" envPL).2.2
      = .askZip ∧
    (handle_location_fallback dbA sessMatched 5 100 "zip" envPL).1
      = .waitingLocation ∧
    (handle_location_fallback dbA sessMatched 5 100 "zip" envPL).2.1 = dbA := by
  refine ⟨by decide, by decide, rfl, rfl, rfl⟩

/-- C8 amended: a text input is accepted as a postal code exactly when it is
ZIP-shaped (3–10 characters whose residue after removing hyphens and spaces
is nonempty and alphanumeric) *and* is neither a skip signal nor a
zip-entry-request phrase; a non-skip zip-entry-request phrase reprompts for
the code without advancing; and any other input that is none of the three is
rejected with a reprompt, leaving state and database unchanged. -/
theorem C8_zip_acceptance (db : DB) (sess : Session) (user_id now : Nat)
    (input : String) (env : LocEnv) :
    ((handle_location_fallback db sess user_id now input env).2.2
        = .acceptedZip (pyStrip input) ↔
      isSkipSignal (pyLower (pyStrip input)) env.btnSkip = false ∧
      isZipRequest (pyLower (pyStrip input)) env.btnZip = false ∧
      looksLikeZip (pyStrip input) = true) ∧
    (isSkipSignal (pyLower (pyStrip input)) env.btnSkip = false →
      isZipRequest (pyLower (pyStrip input)) env.btnZip = true →
      handle_location_fallback db sess user_id now input env
        = (.waitingLocation, db, .askZip)) ∧
    (isSkipSignal (pyLower (pyStrip input)) env.btnSkip = false →
      isZipRequest (pyLower (pyStrip input)) env.btnZip = false →
      looksLikeZip (pyStrip input) = false →
      handle_location_fallback db sess user_id now input env
        = (.waitingLocation, db, .reprompt)) := by
  cases h1 : isSkipSignal (pyLower (pyStrip input)) env.btnSkip with
  | true =>
    refine ⟨?_, by simp [h1], by simp [h1]⟩
    simp only [handle_location_fallback, h1, if_true]
    constructor
    · intro hout
      cases hs : sess.existing_stone <;>
        simp [handle_skip_location, hs] at hout
    · rintro ⟨h, -⟩
      exact Bool.noConfusion h
  | false =>
    cases h2 : isZipRequest (pyLower (pyStrip input)) env.btnZip with
    | true =>
      refine ⟨?_, fun _ _ => ?_, by simp⟩
      · simp [handle_location_fallback, h1, h2]
      · simp [handle_location_fallback, h1, h2]
    | false =>
      cases h3 : looksLikeZip (pyStrip input) with
      | true =>
        refine ⟨?_, by simp, by simp⟩
        cases hz : env.zipLookup with
        | none =>
          cases hs : sess.existing_stone with
          | none =>
            simp [handle_location_fallback, h1, h2, h3, hz, hs]
          | some sid =>
            simp [handle_location_fallback, h1, h2, h3, hz, hs]
        | some latlon =>
          cases hs : sess.existing_stone with
          | none =>
            simp [handle_location_fallback, h1, h2, h3, hz, hs]
          | some sid =>
            simp [handle_location_fallback, h1, h2, h3, hz, hs]
      | false =>
        refine ⟨?_, by simp, fun _ _ _ => ?_⟩
        · simp [handle_location_fallback, h1, h2, h3]
        · simp [handle_location_fallback, h1, h2, h3]

/-- C8 amended, at concrete inputs: `"00-950"` is accepted as a postal code,
and `"!!"` is rejected with a reprompt leaving state and database
unchanged. -/
theorem C8_zip_acceptance_witness :
    (handle_location_fallback dbA sessMatched 5 100 "00-950" envPL).2.2
      = .acceptedZip "00-950" ∧
    handle_location_fallback dbA sessMatched 5 100 "!!" envPL
      = (.waitingLocation, dbA, .reprompt) := by
  constructor
  · exact (C8_zip_acceptance dbA sessMatched 5 100 "00-950" envPL).1.mpr
      ⟨by decide, by decide, by decide⟩
  · exact (C8_zip_acceptance dbA sessMatched 5 100 "!!" envPL).2.2
      (by decide) (by decide) (by decide)

/-- C10: both geocoding lookups carry the bounded `timeout=10.0`; a failed
lookup is swallowed (`None`); and whatever the geocoding outcome — success,
empty result, or raised exception — the location step ends the conversation
and performs its terminal registry write (one sighting appended, which for a
new stone happens together with the stone's creation).  The ZIP path likewise
completes its write even when the forward lookup fails. -/
theorem C10_geocoding_best_effort (db : DB) (sess : Session) (user_id now : Nat)
    (lat lon : ℚ) (geo : Except Unit (Option GeoData)) (e : Unit)
    (input : String) (env : LocEnv) :
    reverseGeocodeTimeoutSeconds = 10 ∧
    forwardGeocodeTimeoutSeconds = 10 ∧
    get_location_from_gps (.error e) = none ∧
    get_coords_from_zip (.error e) = none ∧
    (handle_location db sess user_id now lat lon geo).2 = .terminal ∧
    (handle_location db sess user_id now lat lon geo).1.history.length
      = db.history.length + 1 ∧
    (isSkipSignal (pyLower (pyStrip input)) env.btnSkip = false →
      isZipRequest (pyLower (pyStrip input)) env.btnZip = false →
      looksLikeZip (pyStrip input) = true →
      (handle_location_fallback db sess user_id now input env).1 = .terminal ∧
      (handle_location_fallback db sess user_id now input
          env).2.1.history.length = db.history.length + 1) := by
  refine ⟨rfl, rfl, rfl, rfl, ?_, ?_, ?_⟩
  · cases geo with
    | error e' =>
      cases hs : sess.existing_stone <;> simp [handle_location, hs]
    | ok o =>
      cases o <;> cases hs : sess.existing_stone <;>
        simp [handle_location, hs]
  · cases geo with
    | error e' =>
      cases hs : sess.existing_stone <;>
        simp [handle_location, hs, add_to_history, register_stone]
    | ok o =>
      cases o <;> cases hs : sess.existing_stone <;>
        simp [handle_location, hs, add_to_history, register_stone]
  · intro h1 h2 h3
    cases hz : env.zipLookup with
    | none =>
      cases hs : sess.existing_stone <;>
        constructor <;>
        simp [handle_location_fallback, h1, h2, h3, hz, hs,
          add_to_history, register_stone]
    | some latlon =>
      cases hs : sess.existing_stone <;>
        constructor <;>
        simp [handle_location_fallback, h1, h2, h3, hz, hs,
          add_to_history, register_stone]

/-- C10 at concrete inputs: with the reverse lookup raising, the location
step still ends the conversation and appends the sighting; with the forward
lookup failing, the ZIP path still completes its write. -/
theorem C10_geocoding_best_effort_witness :
    (handle_location dbA sessMatched 5 100 52 21 (.error ())).2 = .terminal ∧
    (handle_location dbA sessMatched 5 100 52 21
        (.error ())).1.history.length = dbA.history.length + 1 ∧
    (handle_location_fallback dbA sessMatched 5 100 "00-950" envPL).1
      = .terminal ∧
    (handle_location_fallback dbA sessMatched 5 100 "00-950"
        envPL).2.1.history.length = dbA.history.length + 1 := by
  have H := C10_geocoding_best_effort dbA sessMatched 5 100 52 21
    (.error ()) () "00-950" envPL
  have HZ := H.2.2.2.2.2.2 (by decide) (by decide) (by decide)
  exact ⟨H.2.2.2.2.1, H.2.2.2.2.2.1, HZ.1, HZ.2⟩
